import Mathlib

/-!
# Verification of the CodeCity interpreter core (value model and Object built-ins)

Shallow embedding of:
* `src/server/interpreter/object/primitives.go` — the primitive value
  variants (Undefined, Null, Boolean, Number, String) and their
  coercions and property operations;
* `src/server/interpreter/builtin_object.go` — the native
  implementations of the `Object` built-ins.

The `data` package (the heap object store, property descriptors and
related operations) is referenced by `builtin_object.go` but its source
is not part of this repository snapshot; those operations are modelled
from the specification (each such definition carries a doc comment
starting `Modelled from the spec:`).

Modelling conventions:
* Go strings are modelled as Lean `String` (sequences of Unicode scalar
  values).  The byte-level prefix test `str[0:2] == "0x"` agrees with the
  character-level test whenever the tested prefix is ASCII, which is the
  only way it can succeed, so the character-level model is faithful.
* IEEE-754 float64 values are modelled exactly: a number is NaN, ±Inf or
  an exact rational in lowest terms (the type `Q` below).
  Decimal-to-double rounding, the exact overflow half-ULP boundary,
  subnormal underflow and negative zero are not modelled (results are
  kept as exact rationals, −0 is identified with 0); every value reached
  by the claims below is exactly representable, so this abstraction is
  lossless there.
* A Go `panic` (e.g. indexing past the end of the `args` slice) is
  modelled by `Option.none`: builtins return `Option (Value × Bool × Store)`.
* Heap objects are modelled by an explicit store mapping references
  (`Nat`) to object records; Go's in-place mutation becomes explicit
  state passing of the store.
-/

set_option maxRecDepth 10000

namespace CodeCity

/-! ## Exact rationals (kernel-computable stand-in for float64 values) -/

/-- An exact rational `num / den`.  Every value built by the smart
constructors below is in lowest terms with a positive denominator, so
structural equality is value equality. -/
structure Q where
  num : Int
  den : Nat
deriving DecidableEq

namespace Q

/-- `n / d` reduced to lowest terms (callers always pass `d ≠ 0`). -/
def norm (n : Int) (d : Nat) : Q :=
  let g := n.natAbs.gcd d
  if g = 0 then ⟨0, 1⟩ else ⟨n / (g : Int), d / g⟩

def ofInt (n : Int) : Q := ⟨n, 1⟩

instance (n : Nat) : OfNat Q n := ⟨⟨(n : Int), 1⟩⟩

instance : Neg Q := ⟨fun a => ⟨-a.num, a.den⟩⟩

/-- `a ≤ b` by cross-multiplication (denominators are positive). -/
def le (a b : Q) : Bool := a.num * (b.den : Int) ≤ b.num * (a.den : Int)

/-- `a < b` by cross-multiplication (denominators are positive). -/
def lt (a b : Q) : Bool := a.num * (b.den : Int) < b.num * (a.den : Int)

/-- The exact value `±mant · 10^e` of a decimal scientific literal. -/
def sciValue (neg : Bool) (mant : Nat) (e : Int) : Q :=
  let sn : Int := if neg then -(mant : Int) else (mant : Int)
  if 0 ≤ e then ofInt (sn * ((Nat.pow 10 e.toNat : Nat) : Int))
  else norm sn (Nat.pow 10 (-e).toNat)

end Q

/-- Exact model of a JS number (Go float64): NaN, signed infinity, or an
exact rational (see the file header for the rounding abstraction). -/
inductive JSNumber where
  | nan : JSNumber
  | inf (pos : Bool) : JSNumber
  | finite (q : Q) : JSNumber
deriving DecidableEq

/-- The interpreter's value domain: a closed sum of six variants
(`primitives.go` plus the `data.Object` interface, whose heap entity is
identified here by a store reference). -/
inductive Value where
  | undefined : Value
  | null : Value
  | boolean (b : Bool) : Value
  | number (n : JSNumber) : Value
  | string (s : String) : Value
  | object (ref : Nat) : Value
deriving DecidableEq

/-- The (name, message) error pair of the core (`ErrorMsg` in Go). -/
structure ErrorMsg where
  name : String
  message : String
deriving DecidableEq

/-- Shorthand for a TypeError `ErrorMsg` (the core emits only TypeError). -/
def mkTE (msg : String) : ErrorMsg := ⟨"TypeError", msg⟩

/-! ## Decimal digits (model of Go's integer formatting used via fmt %g) -/

/-- Digits of a natural number, most significant first (fuel-based). -/
def natDigitsAux : Nat → Nat → List Char
  | 0, _ => []
  | fuel + 1, n =>
    if n = 0 then []
    else natDigitsAux fuel (n / 10) ++ [Char.ofNat (48 + n % 10)]

/-- Decimal string of a natural number. -/
def natToString (n : Nat) : String :=
  if n = 0 then "0" else ⟨natDigitsAux (n + 1) n⟩

/-- Decimal string of an integer. -/
def intToString (i : Int) : String :=
  if i < 0 then "-" ++ natToString i.natAbs else natToString i.natAbs

/-- Model of Go `fmt.Sprintf("%g", f)` for a finite nonnegative float64,
restricted to the values this development evaluates it at: integers
(rendered as plain decimal, as %g does for magnitudes below 1e21) and
short exact decimal fractions.  The %g shortest-representation
algorithm for other doubles is not modelled (never evaluated by the
claims). -/
def fmtGPos (q : Q) : String :=
  if q.den = 1 then natToString q.num.natAbs
  else
    -- integer part, then up to 17 fractional digits, trailing zeros stripped
    let ip := q.num.natAbs / q.den
    let fracDigits :=
      (List.range 17).foldl
        (fun (acc : List Char × Nat) _ =>
          let n := acc.2 * 10
          (acc.1 ++ [Char.ofNat (48 + (n / q.den) % 10)], n % q.den))
        ([], q.num.natAbs % q.den)
    let frac := (fracDigits.1.reverse.dropWhile (· = '0')).reverse
    natToString ip ++ "." ++ ⟨frac⟩

def fmtG (q : Q) : String :=
  if q.num < 0 then "-" ++ fmtGPos (-q) else fmtGPos q

/-- `Number.ToString` (primitives.go:206): "Infinity" for +Inf,
"-Infinity" for -Inf, otherwise `fmt %g` (which renders NaN as "NaN"). -/
def numberToString : JSNumber → String
  | .inf true => "Infinity"
  | .inf false => "-Infinity"
  | .nan => "NaN"
  | .finite q => fmtG q

/-! ## Whitespace trimming (model of Go `strings.TrimSpace`) -/

/-- Go `unicode.IsSpace`: the Unicode White_Space property
(`'\t','\n','\v','\f','\r',' '`, U+0085, U+00A0, U+1680, U+2000–U+200A,
U+2028, U+2029, U+202F, U+205F, U+3000). -/
def isSpaceGo (c : Char) : Bool :=
  c = '\t' || c = '\n' || c = '\x0B' || c = '\x0C' || c = '\x0D' || c = ' '
    || c.toNat = 0x85 || c.toNat = 0xA0 || c.toNat = 0x1680
    || (0x2000 ≤ c.toNat && c.toNat ≤ 0x200A)
    || c.toNat = 0x2028 || c.toNat = 0x2029 || c.toNat = 0x202F
    || c.toNat = 0x205F || c.toNat = 0x3000

/-- Drop leading and trailing characters of a list satisfying `p`. -/
def trimList (p : Char → Bool) (l : List Char) : List Char :=
  ((l.dropWhile p).reverse.dropWhile p).reverse

/-- Go `strings.TrimSpace`: removes leading and trailing Unicode
whitespace (per `unicode.IsSpace`). -/
def trimSpaceGo (s : String) : String := ⟨trimList isSpaceGo s.data⟩

/-- ASCII whitespace test: `'\t','\n','\v','\f','\r',' '`. -/
def isSpaceAscii (c : Char) : Bool :=
  c = '\t' || c = '\n' || c = '\x0B' || c = '\x0C' || c = '\x0D' || c = ' '

/-- ASCII-only whitespace trim.  This follows the claim's words ("trims
ASCII whitespace"), for comparison against the source's `TrimSpace`. -/
def trimSpaceAscii (s : String) : String := ⟨trimList isSpaceAscii s.data⟩

/-! ## Model of Go `strconv.ParseInt(s, 16, 64)` and `strconv.ParseFloat(s, 64)` -/

/-- Go `strconv` error kinds: `ErrSyntax` or `ErrRange`. -/
inductive GoNumErr where
  | synErr : GoNumErr
  | rangeErr : GoNumErr
deriving DecidableEq

def isHexDigitGo (c : Char) : Bool :=
  ('0' ≤ c && c ≤ '9') || ('a' ≤ c && c ≤ 'f') || ('A' ≤ c && c ≤ 'F')

def hexDigitVal (c : Char) : Nat :=
  if '0' ≤ c && c ≤ '9' then c.toNat - 48
  else if 'a' ≤ c && c ≤ 'f' then c.toNat - 97 + 10
  else c.toNat - 65 + 10

def decDigitsVal (l : List Char) : Nat :=
  l.foldl (fun a c => a * 10 + (c.toNat - 48)) 0

def hexDigitsVal (l : List Char) : Nat :=
  l.foldl (fun a c => a * 16 + hexDigitVal c) 0

/-- Go `strconv.ParseInt(s, 16, 64)`: optional sign, then one or more
hexadecimal digits; out-of-int64-range values are clamped to
MaxInt64/MinInt64 with `ErrRange`.  (The Go implementation first parses
the magnitude as a uint64 clamping at MaxUint64; composing the two
clamps yields the same result as clamping the exact magnitude, which is
what this model does.)  Returns the pair (value, error) as Go does. -/
def goParseInt16 (s : List Char) : Int × Option GoNumErr :=
  let (neg, digits) :=
    match s with
    | '+' :: rest => (false, rest)
    | '-' :: rest => (true, rest)
    | _ => (false, s)
  if digits.isEmpty || !digits.all isHexDigitGo then (0, some .synErr)
  else
    let m := hexDigitsVal digits
    if neg then
      if m > Nat.pow 2 63 then (-((Nat.pow 2 63 : Nat) : Int), some .rangeErr)
      else (-(m : Int), none)
    else
      if m ≥ Nat.pow 2 63 then (((Nat.pow 2 63 : Nat) : Int) - 1, some .rangeErr)
      else ((m : Int), none)

def isDecDigit (c : Char) : Bool := '0' ≤ c && c ≤ '9'

/-- The special values recognized by Go `ParseFloat` before the numeric
grammar: case-insensitive "inf"/"infinity" with optional sign, and
unsigned "nan". -/
def goParseFloatSpecial (s : List Char) : Option JSNumber :=
  match s with
  | [] => none
  | c :: _ =>
    let low : List Char := s.map Char.toLower
    if c = '+' then
      if low = ('+' :: "inf".data) || low = ('+' :: "infinity".data) then
        some (.inf true)
      else none
    else if c = '-' then
      if low = ('-' :: "inf".data) || low = ('-' :: "infinity".data) then
        some (.inf false)
      else none
    else if c = 'n' || c = 'N' then
      if low = "nan".data then some .nan else none
    else if c = 'i' || c = 'I' then
      if low = "inf".data || low = "infinity".data then some (.inf true)
      else none
    else none

/-- The decimal grammar of Go (pre-1.13) `ParseFloat`: optional sign,
digits with at most one dot (at least one digit overall), optional
`e`/`E` exponent with optional sign and at least one digit; the whole
input must be consumed.  Returns the exact rational value. -/
def readDecimalFloat (s : List Char) : Option Q :=
  let (neg, rest0) :=
    match s with
    | '+' :: rest => (false, rest)
    | '-' :: rest => (true, rest)
    | _ => (false, s)
  let intPart := rest0.takeWhile isDecDigit
  let rest1 := rest0.drop intPart.length
  let (fracPart, rest2) :=
    match rest1 with
    | '.' :: r =>
      let f := r.takeWhile isDecDigit
      (f, r.drop f.length)
    | _ => ([], rest1)
  if intPart.isEmpty && fracPart.isEmpty then none
  else
    let mant := decDigitsVal (intPart ++ fracPart)
    match rest2 with
    | [] => some (Q.sciValue neg mant (-(fracPart.length : Int)))
    | e :: r =>
      if e = 'e' || e = 'E' then
        let (eneg, edigits0) :=
          match r with
          | '+' :: er => (false, er)
          | '-' :: er => (true, er)
          | _ => (false, r)
        if edigits0.isEmpty || !edigits0.all isDecDigit then none
        else
          let ev : Int := (decDigitsVal edigits0 : Int)
          some (Q.sciValue neg mant
            ((if eneg then -ev else ev) - (fracPart.length : Int)))
      else none

/-- The smallest positive rational that float64 rounding sends to +Inf
(2^1024 − 2^970, the half-ULP point above MaxFloat64). -/
def float64OverflowBound : Q := Q.ofInt ((Nat.pow 2 1024 - Nat.pow 2 970 : Nat) : Int)

/-- Go `strconv.ParseFloat(s, 64)`, as the pair (value, error) Go
returns: special words first, then the decimal grammar; overflow clamps
to ±Inf with `ErrRange`; a syntax failure returns (0, `ErrSyntax`).
Finite results are kept as exact rationals (see the file header). -/
def goParseFloat (s : List Char) : JSNumber × Option GoNumErr :=
  match goParseFloatSpecial s with
  | some f => (f, none)
  | none =>
    match readDecimalFloat s with
    | none => (.finite 0, some .synErr)
    | some q =>
      if Q.le float64OverflowBound q then (.inf true, some .rangeErr)
      else if Q.le q (-float64OverflowBound) then (.inf false, some .rangeErr)
      else (.finite q, none)

/-- `String.ToNumber` (primitives.go:291): trim whitespace, 0 for empty,
hex after a `0x`/`0X` prefix (when more than two characters remain),
otherwise `ParseFloat`; `ErrSyntax` yields NaN, `ErrRange` yields the
clamped value (±Inf for the hex path by the sign test `n > 0`). -/
def stringToNumber (s : String) : JSNumber :=
  let str := (trimSpaceGo s).data
  if str.length = 0 then .finite 0
  else
    if str.length > 2 && (str.take 2 = ['0', 'x'] || str.take 2 = ['0', 'X']) then
      let (n, err) := goParseInt16 (str.drop 2)
      match err with
      | some .synErr => .nan
      | some .rangeErr => if n > 0 then .inf true else .inf false
      | none => .finite (Q.ofInt n)
    else
      let (f, err) := goParseFloat str
      match err with
      | some .synErr => .nan
      | _ => f

/-- The claim's version of `String.ToNumber`: identical to
`stringToNumber` except that only ASCII whitespace is trimmed ("first
trims ASCII whitespace").  Used to compare the claim's words with the
source, which uses `strings.TrimSpace` (Unicode whitespace). -/
def stringToNumberClaimAscii (s : String) : JSNumber :=
  let str := (trimSpaceAscii s).data
  if str.length = 0 then .finite 0
  else
    if str.length > 2 && (str.take 2 = ['0', 'x'] || str.take 2 = ['0', 'X']) then
      let (n, err) := goParseInt16 (str.drop 2)
      match err with
      | some .synErr => .nan
      | some .rangeErr => if n > 0 then .inf true else .inf false
      | none => .finite (Q.ofInt n)
    else
      let (f, err) := goParseFloat str
      match err with
      | some .synErr => .nan
      | _ => f

/-! ## UTF-16 encoding (model of Go `utf16.Encode`) -/

/-- UTF-16 code units of one Unicode scalar value (Go `utf16.Encode` on
a single valid rune; Lean `Char` carries only valid scalar values, so
Go's replacement-character path for invalid runes cannot arise). -/
def utf16EncodeChar (c : Char) : List Nat :=
  if c.toNat < 0x10000 then [c.toNat]
  else [0xD800 + (c.toNat - 0x10000) / 0x400, 0xDC00 + (c.toNat - 0x10000) % 0x400]

/-- Go `utf16.Encode([]rune(s))`. -/
def utf16Encode (l : List Char) : List Nat := (l.map utf16EncodeChar).flatten

/-- `len(utf16.Encode([]rune(string(s))))` (primitives.go:250). -/
def stringUtf16Length (s : String) : Nat := (utf16Encode s.data).length

/-! ## Per-variant coercions and type tags (primitives.go) -/

/-- `Type()` per variant; Null reports "object" (primitives.go:347). -/
def valueType : Value → String
  | .undefined => "undefined"
  | .null => "object"
  | .boolean _ => "boolean"
  | .number _ => "number"
  | .string _ => "string"
  | .object _ => "object"

/-- `IsPrimitive()` per variant: true for all except Object. -/
def valueIsPrimitive : Value → Bool
  | .object _ => false
  | _ => true

/-- `ToBoolean()` per variant.  The Object case is modelled from the
spec: "for Objects, ToBoolean = true" (§4.1). -/
def valueToBoolean : Value → Bool
  | .undefined => false
  | .null => false
  | .boolean b => b
  | .number .nan => false
  | .number (.finite q) => !(q.num == 0)
  | .number (.inf _) => true
  | .string s => !s.data.isEmpty
  | .object _ => true

/-- `ToNumber()` per variant.  The Object case routes through
`ToPrimitive` and hence through the evaluator (spec §4.1), which is
outside this model: it yields `none`. -/
def valueToNumber : Value → Option JSNumber
  | .undefined => some .nan
  | .null => some (.finite 0)
  | .boolean b => some (.finite (if b then Q.ofInt 1 else Q.ofInt 0))
  | .number n => some n
  | .string s => some (stringToNumber s)
  | .object _ => none

/-- `ToString()` per variant.  The Object case routes through
`ToPrimitive` and hence through the evaluator (spec §4.1), which is
outside this model: it yields `none`. -/
def valueToString : Value → Option String
  | .undefined => some "undefined"
  | .null => some "null"
  | .boolean b => some (if b then "true" else "false")
  | .number n => some (numberToString n)
  | .string s => some s
  | .object _ => none

/-- `ToPrimitive()` per variant: every primitive returns itself
(primitives.go:139,218,334,409,479).  The Object case invokes `valueOf`
then `toString` via the evaluator (spec §4.1), outside this model. -/
def valueToPrimitive : Value → Option Value
  | .object _ => none
  | v => some v

/-! ## The object store (the `data` package, modelled from the spec) -/

/-- Modelled from the spec: a stored property of `data.Object` is either
a data property (value, writable, enumerable, configurable) or an
accessor property (get, set, enumerable, configurable); never both
(§3, §4.3). -/
inductive Property where
  | data (value : Value) (writable enumerable configurable : Bool) : Property
  | accessor (get setv : Value) (enumerable configurable : Bool) : Property
deriving DecidableEq

/-- `IsEnumerable()` of a stored property. -/
def Property.IsEnumerable : Property → Bool
  | .data _ _ e _ => e
  | .accessor _ _ e _ => e

/-- The `.Value` field of a stored property as read by
`builtinObjectꞏdefineProperties` (builtin_object.go:166).  Modelled from
the spec: an accessor property has no value field; reading it yields
Undefined, which then fails the Object type assertion, exactly as a
non-object data value does. -/
def Property.Value : Property → Value
  | .data v _ _ _ => v
  | .accessor _ _ _ _ => Value.undefined

/-- Modelled from the spec: the three-valued property descriptor handed
to `DefineOwnProperty` — every field may be absent (§4.3). -/
structure PropDesc where
  value : Option Value := none
  writable : Option Bool := none
  get : Option Value := none
  setv : Option Value := none
  enumerable : Option Bool := none
  configurable : Option Bool := none
deriving DecidableEq

/-- Modelled from the spec: a heap object — internal prototype
(reference or none), insertion-ordered property table, extensibility,
callability (function objects), the Array marker, and the boxed
primitive of wrapper objects (§3, §4.2; the owner tag is left out, the
spec leaves it abstract). -/
structure Obj where
  protoRef : Option Nat := none
  props : List (String × Property) := []
  extensible : Bool := true
  callable : Bool := false
  isArray : Bool := false
  primitive : Option Value := none
deriving DecidableEq

/-- The heap: allocated references below `next`, each mapped to an
object record.  Go's reference semantics (interface values pointing at
heap objects) becomes explicit store passing. -/
structure Store where
  next : Nat := 0
  objs : List (Nat × Obj) := []
deriving DecidableEq

def Store.get? (st : Store) (r : Nat) : Option Obj :=
  (st.objs.find? (fun p => p.1 == r)).map (·.2)

def Store.set (st : Store) (r : Nat) (o : Obj) : Store :=
  { st with objs := st.objs.map (fun p => if p.1 == r then (r, o) else p) }

def Store.alloc (st : Store) (o : Obj) : Nat × Store :=
  (st.next, ⟨st.next + 1, st.objs ++ [(st.next, o)]⟩)

/-- `GetOwnProperty(key)`: the own property table, no prototype walk. -/
def Obj.getOwnProperty (o : Obj) (k : String) : Option Property :=
  (o.props.find? (fun p => p.1 == k)).map (·.2)

/-- `OwnPropertyKeys()`: own keys in insertion order. -/
def Obj.ownPropertyKeys (o : Obj) : List String := o.props.map (·.1)

/-- Replace the property stored under `k` (keeping its position). -/
def replaceProp (props : List (String × Property)) (k : String) (p : Property) :
    List (String × Property) :=
  props.map (fun q => if q.1 == k then (k, p) else q)

/-- Modelled from the spec: `data.Object.DefineOwnProperty(key, desc)`
(§4.2 "full ES5 [[DefineOwnProperty]] semantics"), with the
configurable=false rule as the spec states it (§3): a non-configurable
property "may not be redefined except for narrowing writable
true→false or overwriting the value when writable=true"; absent
descriptor fields keep the existing value when redefining and default
to false/Undefined when creating (§4.3); a new own property requires
the object to be extensible and is appended in insertion order. -/
def Obj.defineOwnProperty (o : Obj) (k : String) (d : PropDesc) :
    Except ErrorMsg Obj :=
  match o.getOwnProperty k with
  | none =>
    if !o.extensible then
      .error (mkTE ("Cannot define property " ++ k ++ ", object is not extensible"))
    else
      let p :=
        if d.get.isSome || d.setv.isSome then
          Property.accessor (d.get.getD .undefined) (d.setv.getD .undefined)
            (d.enumerable.getD false) (d.configurable.getD false)
        else
          Property.data (d.value.getD .undefined) (d.writable.getD false)
            (d.enumerable.getD false) (d.configurable.getD false)
      .ok { o with props := o.props ++ [(k, p)] }
  | some (.data v w e c) =>
    if c then
      let p :=
        if d.get.isSome || d.setv.isSome then
          Property.accessor (d.get.getD .undefined) (d.setv.getD .undefined)
            (d.enumerable.getD e) (d.configurable.getD c)
        else
          Property.data (d.value.getD v) (d.writable.getD w)
            (d.enumerable.getD e) (d.configurable.getD c)
      .ok { o with props := replaceProp o.props k p }
    else if d.get.isSome || d.setv.isSome then
      .error (mkTE ("Cannot redefine property: " ++ k))
    else if d.configurable = some true then
      .error (mkTE ("Cannot redefine property: " ++ k))
    else if (match d.enumerable with | some e2 => e2 != e | none => false) then
      .error (mkTE ("Cannot redefine property: " ++ k))
    else if w then
      .ok { o with props :=
        replaceProp o.props k (Property.data (d.value.getD v) (d.writable.getD w) e c) }
    else if d.writable = some true then
      .error (mkTE ("Cannot redefine property: " ++ k))
    else if (match d.value with | some v2 => v2 != v | none => false) then
      .error (mkTE ("Cannot redefine property: " ++ k))
    else .ok o
  | some (.accessor g s2 e c) =>
    if c then
      let p :=
        if d.value.isSome || d.writable.isSome then
          Property.data (d.value.getD .undefined) (d.writable.getD false)
            (d.enumerable.getD e) (d.configurable.getD c)
        else
          Property.accessor (d.get.getD g) (d.setv.getD s2)
            (d.enumerable.getD e) (d.configurable.getD c)
      .ok { o with props := replaceProp o.props k p }
    else if d.value.isSome || d.writable.isSome then
      .error (mkTE ("Cannot redefine property: " ++ k))
    else if d.configurable = some true then
      .error (mkTE ("Cannot redefine property: " ++ k))
    else if (match d.enumerable with | some e2 => e2 != e | none => false) then
      .error (mkTE ("Cannot redefine property: " ++ k))
    else if (match d.get with | some g2 => g2 != g | none => false) then
      .error (mkTE ("Cannot redefine property: " ++ k))
    else if (match d.setv with | some s3 => s3 != s2 | none => false) then
      .error (mkTE ("Cannot redefine property: " ++ k))
    else .ok o

/-- Is `v` a callable (function) object in store `st`? -/
def callableValue (st : Store) (v : Value) : Bool :=
  match v with
  | .object r => (match st.get? r with | some o => o.callable | none => false)
  | _ => false

/-- The value of the own data property `k`, if present.  Modelled from
the spec: `ToPropertyDescriptor` "inspects ... own properties" (§4.3);
an accessor-shaped field on a descriptor object would need an evaluator
getter call, outside this model, and is treated as absent. -/
def Obj.ownDataValue (o : Obj) (k : String) : Option Value :=
  match o.getOwnProperty k with
  | some (.data v _ _ _) => some v
  | _ => none

/-- Modelled from the spec: `data.ToPropertyDescriptor(obj)` (§4.3) —
reads the `value`/`writable`/`get`/`set`/`enumerable`/`configurable`
own properties; boolean fields are `ToBoolean`-coerced; a present
`get`/`set` must be callable; combining (value ∨ writable) with
(get ∨ set) is a TypeError. -/
def toPropertyDescriptor (st : Store) (dObj : Obj) : Except ErrorMsg PropDesc :=
  let value := dObj.ownDataValue "value"
  let writable := (dObj.ownDataValue "writable").map valueToBoolean
  let enumerable := (dObj.ownDataValue "enumerable").map valueToBoolean
  let configurable := (dObj.ownDataValue "configurable").map valueToBoolean
  let g := dObj.ownDataValue "get"
  let s2 := dObj.ownDataValue "set"
  if (match g with | some gv => !callableValue st gv | none => false) then
    .error (mkTE "Getter must be a function")
  else if (match s2 with | some sv => !callableValue st sv | none => false) then
    .error (mkTE "Setter must be a function")
  else if (value.isSome || writable.isSome) && (g.isSome || s2.isSome) then
    .error (mkTE "Invalid property descriptor: cannot both specify accessors and a value or writable attribute")
  else .ok ⟨value, writable, g, s2, enumerable, configurable⟩

/-- Modelled from the spec: `data.FromPropertyDescriptor(desc, owner,
objectProto)` (§4.3) — a fresh plain object with the four own
properties of the descriptor's shape, all enumerable and configurable
(and writable); the error return is never used on this path. -/
def fromPropertyDescriptor (st : Store) (pd : Property) (objectProto : Option Nat) :
    Except ErrorMsg (Nat × Store) :=
  let mk := fun (v : Value) => Property.data v true true true
  let fields :=
    match pd with
    | .data v w e c =>
      [("value", mk v), ("writable", mk (.boolean w)),
       ("enumerable", mk (.boolean e)), ("configurable", mk (.boolean c))]
    | .accessor g s2 e c =>
      [("get", mk g), ("set", mk s2),
       ("enumerable", mk (.boolean e)), ("configurable", mk (.boolean c))]
  let (r, st') := st.alloc { protoRef := objectProto, props := fields }
  .ok (r, st')

/-! ## Prototype roots and the value-level property operations -/

/-- The process-wide prototype roots (spec §5), pre-allocated at fixed
references in the initial store. -/
def objectProtoRef : Nat := 0
def booleanProtoRef : Nat := 1
def numberProtoRef : Nat := 2
def stringProtoRef : Nat := 3
def arrayProtoRef : Nat := 4

/-- The store after startup: the five prototype roots (ObjectProto with
no prototype, the others with ObjectProto), empty property tables. -/
def initStore : Store :=
  ⟨5, [(objectProtoRef, { protoRef := none }),
       (booleanProtoRef, { protoRef := some objectProtoRef }),
       (numberProtoRef, { protoRef := some objectProtoRef }),
       (stringProtoRef, { protoRef := some objectProtoRef }),
       (arrayProtoRef, { protoRef := some objectProtoRef })]⟩

/-- Modelled from the spec: `data.Object.GetProperty(key)` (§4.2) —
walk the prototype chain from `r`; a data property yields its value, a
missing key yields Undefined; an accessor property invokes its getter
via the evaluator, which is outside this model (`none`); the fuel bound
models the spec's no-cycle invariant (a chain traversal terminates in
at most the number of live objects). -/
def objGetPropertyFuel (st : Store) (k : String) : Nat → Nat → Option (Except ErrorMsg Value)
  | 0, _ => none
  | fuel + 1, r =>
    match st.get? r with
    | none => none
    | some o =>
      match o.getOwnProperty k with
      | some (.data v _ _ _) => some (.ok v)
      | some (.accessor _ _ _ _) => none
      | none =>
        match o.protoRef with
        | none => some (.ok .undefined)
        | some p => objGetPropertyFuel st k fuel p

def objGetProperty (st : Store) (r : Nat) (k : String) : Option (Except ErrorMsg Value) :=
  objGetPropertyFuel st k (st.objs.length + 1) r

/-- `GetProperty` per variant (primitives.go:96,167,246,367,437):
Undefined and Null throw, Boolean/Number delegate to their prototype,
String implements the magic `length` itself and delegates the rest. -/
def valueGetProperty (st : Store) (v : Value) (name : String) :
    Option (Except ErrorMsg Value) :=
  match v with
  | .undefined =>
    some (.error ⟨"TypeError", "Cannot read property '" ++ name ++ "' of undefined"⟩)
  | .null =>
    some (.error ⟨"TypeError", "Cannot read property '" ++ name ++ "' of null"⟩)
  | .boolean _ => objGetProperty st booleanProtoRef name
  | .number _ => objGetProperty st numberProtoRef name
  | .string s =>
    if name ≠ "length" then objGetProperty st stringProtoRef name
    else some (.ok (.number (.finite (Q.ofInt (stringUtf16Length s)))))
  | .object r => objGetProperty st r name

/-- The canonical array index denoted by `k`, if any (digits only, no
leading zero except "0"). -/
def parseIndex (k : String) : Option Nat :=
  if !k.data.isEmpty && k.data.all isDecDigit
      && natToString (decDigitsVal k.data) == k then
    some (decDigitsVal k.data)
  else none

/-- The current `length` of an array object (its own `length` data
property, 0 if malformed). -/
def Obj.arrayLength (o : Obj) : Nat :=
  match o.getOwnProperty "length" with
  | some (.data (.number (.finite q)) _ _ _) => if q.den == 1 then q.num.toNat else 0
  | _ => 0

/-- Find the nearest inherited property named `k` above `proto` (fuel
as in `objGetPropertyFuel`).  `some none`: no such property. -/
def findInheritedProp (st : Store) (k : String) : Nat → Option Nat → Option (Option Property)
  | _, none => some none
  | 0, some _ => none
  | fuel + 1, some p =>
    match st.get? p with
    | none => none
    | some o =>
      match o.getOwnProperty k with
      | some pr => some (some pr)
      | none => findInheritedProp st k fuel o.protoRef

/-- Modelled from the spec: `data.Object.Set(key, value)` (§4.2) —
honors writable along the prototype chain, requires extensibility to
add a new own property, and maintains the magic Array `length` (§3):
writing `length` truncates higher-indexed elements, writing an index ≥
length bumps `length`.  Setters would invoke the evaluator, outside
this model. -/
def objSet (st : Store) (r : Nat) (k : String) (v : Value) :
    Option (Option ErrorMsg × Store) :=
  match st.get? r with
  | none => none
  | some o =>
    match o.getOwnProperty k with
    | some (.accessor _ _ _ _) => none
    | some (.data _ w e c) =>
      if !w then
        some (some (mkTE ("Cannot assign to read only property '" ++ k ++ "'")), st)
      else if o.isArray && k == "length" then
        match v with
        | .number (.finite q) =>
          if q.den == 1 && 0 ≤ q.num then
            let newLen := q.num.toNat
            let pruned := o.props.filter (fun kp =>
              match parseIndex kp.1 with
              | some i => i < newLen
              | none => true)
            let o' := { o with props := replaceProp pruned k (.data v w e c) }
            some (none, st.set r o')
          else some (some ⟨"RangeError", "Invalid array length"⟩, st)
        | _ => some (some ⟨"RangeError", "Invalid array length"⟩, st)
      else
        some (none, st.set r { o with props := replaceProp o.props k (.data v w e c) })
    | none =>
      match findInheritedProp st k (st.objs.length + 1) o.protoRef with
      | none => none
      | some (some (.accessor _ _ _ _)) => none
      | some (some (.data _ w _ _)) =>
        if !w then
          some (some (mkTE ("Cannot assign to read only property '" ++ k ++ "'")), st)
        else addOwn o
      | some none => addOwn o
  where
    addOwn (o : Obj) : Option (Option ErrorMsg × Store) :=
      if !o.extensible then
        some (some (mkTE ("Cannot add property " ++ k ++ ", object is not extensible")), st)
      else
        let o1 := { o with props := o.props ++ [(k, Property.data v true true true)] }
        let o2 :=
          if o1.isArray then
            match parseIndex k with
            | some i =>
              if i ≥ o1.arrayLength then
                let lenProp : Property :=
                  .data (.number (.finite (Q.ofInt (i + 1)))) true false false
                { o1 with props := replaceProp o1.props "length" lenProp }
              else o1
            | none => o1
          else o1
        some (none, st.set r o2)

/-- `SetProperty` per variant (primitives.go:101,172,255,375,445):
Undefined and Null throw, Boolean/Number/String silently succeed with
no effect, Objects go through the store. -/
def valueSetProperty (st : Store) (v : Value) (name : String) (val : Value) :
    Option (Option ErrorMsg × Store) :=
  match v with
  | .undefined =>
    some (some ⟨"TypeError", "Cannot set property '" ++ name ++ "' of undefined"⟩, st)
  | .null =>
    some (some ⟨"TypeError", "Cannot set property '" ++ name ++ "' of null"⟩, st)
  | .boolean _ => some (none, st)
  | .number _ => some (none, st)
  | .string _ => some (none, st)
  | .object r => objSet st r name val

/-! ## Interpreter helpers used by the built-ins -/

/-- Modelled from the spec: `intrp.nativeError(nErr)` — materialize the
(name, message) pair as a fresh error object (§6); the built-in then
returns it with the thrown flag. -/
def nativeError (st : Store) (e : ErrorMsg) : Value × Store :=
  let (r, st') := st.alloc
    { protoRef := some objectProtoRef,
      props := [("name", .data (.string e.name) true false true),
                ("message", .data (.string e.message) true false true)] }
  (.object r, st')

/-- Modelled from the spec: `intrp.typeError(msg)` — a TypeError with
the given message (§6). -/
def typeError (st : Store) (msg : String) : Value × Store :=
  nativeError st (mkTE msg)

/-- `data.NewObject(owner, proto)`: a fresh plain object with the given
prototype (none models Go `nil`).  Modelled from the spec: "allocates a
fresh Object with that prototype" (§4.5); the owner is abstract. -/
def newObject (proto : Option Nat) : Obj := { protoRef := proto }

/-- Modelled from the spec: `data.NewArray(owner, proto)` — an Array
object whose `length` starts at 0 as a writable, non-enumerable,
non-configurable data property (§4.2). -/
def newArray (proto : Option Nat) : Obj :=
  { protoRef := proto, isArray := true,
    props := [("length", .data (.number (.finite (Q.ofInt 0))) true false false)] }

/-- Modelled from the spec: `intrp.toObject(v, owner)` (§4.1) —
Undefined/Null raise TypeError; Boolean/Number/String box into a fresh
wrapper whose prototype is the matching root; Objects pass through. -/
def toObject (st : Store) (v : Value) : Except ErrorMsg (Nat × Store) :=
  match v with
  | .undefined => .error (mkTE "Cannot convert undefined to object")
  | .null => .error (mkTE "Cannot convert null to object")
  | .boolean _ =>
    .ok (st.alloc { protoRef := some booleanProtoRef, primitive := some v })
  | .number _ =>
    .ok (st.alloc { protoRef := some numberProtoRef, primitive := some v })
  | .string _ =>
    .ok (st.alloc { protoRef := some stringProtoRef, primitive := some v })
  | .object r => .ok (r, st)

/-! ## The Object built-ins (builtin_object.go)

Each Go built-in has signature
`(intrp, this, args) → (ret data.Value, throw bool)`; the interpreter
handle and `this` are unused by the built-ins below, and the mutable
heap becomes an explicit `Store`, so the model signature is
`Store → List Value → Option (Value × Bool × Store)` (`none` = panic,
e.g. indexing past the end of `args`).  The source names use the
sinological dot U+A78F in place of `.`; here it becomes `_`.
`builtinObject_defineProperties` is defined before
`builtinObject_create` because the latter calls it. -/

/-- The registry entries of builtin_object.go:43 (tag, declared arity);
the implementation field is the correspondingly named function below. -/
def builtinObjectNativeImpls : List (String × Nat) :=
  [("Object.getPrototypeOf", 1),
   ("Object.getOwnPropertyDescriptor", 2),
   ("Object.getOwnPropertyNames", 1),
   ("Object.create", 2),
   ("Object.defineProperty", 3),
   ("Object.defineProperties", 2),
   ("Object.prototype.toString", 0)]

/-- `builtinObjectꞏgetPrototypeOf` (builtin_object.go:62): args[0] must
be an Object, else thrown TypeError "Cannot get prototype of <ToString>";
otherwise its prototype, or Null when it has none. -/
def builtinObject_getPrototypeOf (st : Store) (args : List Value) :
    Option (Value × Bool × Store) :=
  match args.get? 0 with
  | none => none
  | some (.object r) =>
    match st.get? r with
    | none => none
    | some o =>
      match o.protoRef with
      | none => some (.null, false, st)
      | some p => some (.object p, false, st)
  | some a0 =>
    match valueToString a0 with
    | none => none
    | some s0 =>
      let (v, st') := typeError st ("Cannot get prototype of " ++ s0)
      some (v, true, st')

/-- `builtinObjectꞏgetOwnPropertyDescriptor` (builtin_object.go:74):
args[0] must be an Object (else thrown TypeError, before args[1] is
touched); args[1] is ToString-coerced to the key; no own property
yields Undefined, otherwise a fresh descriptor object. -/
def builtinObject_getOwnPropertyDescriptor (st : Store) (args : List Value) :
    Option (Value × Bool × Store) :=
  match args.get? 0 with
  | none => none
  | some (.object r) =>
    match args.get? 1 with
    | none => none
    | some a1 =>
      match valueToString a1 with
      | none => none
      | some key =>
        match st.get? r with
        | none => none
        | some o =>
          match o.getOwnProperty key with
          | none => some (.undefined, false, st)
          | some pd =>
            match fromPropertyDescriptor st pd (some objectProtoRef) with
            | .error e =>
              let (v, st') := nativeError st e
              some (v, true, st')
            | .ok (dr, st') => some (.object dr, false, st')
  | some a0 =>
    match valueToString a0 with
    | none => none
    | some s0 =>
      let (v, st') := typeError st ("Cannot get property descriptor from " ++ s0)
      some (v, true, st')

/-- The loop of `builtinObjectꞏgetOwnPropertyNames` (builtin_object.go:98):
`keys.Set(string(Number(i).ToString()), String(k))` for each own key,
any Set error aborting with that error. -/
def ownPropertyNamesLoop (kr : Nat) :
    List (Nat × String) → Store → Option (Except ErrorMsg Store)
  | [], st => some (.ok st)
  | (i, k) :: rest, st =>
    match objSet st kr (numberToString (.finite (Q.ofInt i))) (.string k) with
    | none => none
    | some (some e, _) => some (.error e)
    | some (none, st') => ownPropertyNamesLoop kr rest st'

/-- `builtinObjectꞏgetOwnPropertyNames` (builtin_object.go:92): args[0]
must be an Object (else thrown TypeError, with the source's "propery"
typo); returns a fresh Array of its own keys in iteration order. -/
def builtinObject_getOwnPropertyNames (st : Store) (args : List Value) :
    Option (Value × Bool × Store) :=
  match args.get? 0 with
  | none => none
  | some (.object r) =>
    match st.get? r with
    | none => none
    | some o =>
      let (kr, st1) := st.alloc (newArray (some arrayProtoRef))
      match ownPropertyNamesLoop kr o.ownPropertyKeys.enum st1 with
      | none => none
      | some (.error e) =>
        let (v, st2) := nativeError st1 e
        some (v, true, st2)
      | some (.ok st2) => some (.object kr, false, st2)
  | some a0 =>
    match valueToString a0 with
    | none => none
    | some s0 =>
      let (v, st') := typeError st ("Cannot get propery names of " ++ s0)
      some (v, true, st')

/-- `builtinObjectꞏdefineProperty` (builtin_object.go:125): args[0]
must be an Object, args[1] is the ToString-coerced key, args[2] must be
an Object and is converted to a descriptor and applied; returns
args[0]. -/
def builtinObject_defineProperty (st : Store) (args : List Value) :
    Option (Value × Bool × Store) :=
  match args.get? 0 with
  | none => none
  | some (.object r) =>
    match args.get? 1 with
    | none => none
    | some a1 =>
      match valueToString a1 with
      | none => none
      | some key =>
        match args.get? 2 with
        | none => none
        | some (.object dr) =>
          match st.get? dr with
          | none => none
          | some dObj =>
            match toPropertyDescriptor st dObj with
            | .error e =>
              let (v, st') := nativeError st e
              some (v, true, st')
            | .ok pd =>
              match st.get? r with
              | none => none
              | some o =>
                match o.defineOwnProperty key pd with
                | .error e =>
                  let (v, st') := nativeError st e
                  some (v, true, st')
                | .ok o' => some (.object r, false, st.set r o')
        | some _ =>
          let (v, st') := typeError st "Property descriptor must be an object"
          some (v, true, st')
  | some a0 =>
    match valueToString a0 with
    | none => none
    | some s0 =>
      let (v, st') := typeError st ("Cannot define property on " ++ s0)
      some (v, true, st')

/-- First pass of `builtinObjectꞏdefineProperties` (builtin_object.go:161):
convert the value of every enumerable own property of the props object
to a descriptor, left to right, stopping at the first failure and
touching no target state.  (The Go loop iterates `OwnPropertyKeys` and
looks each key up with `GetOwnProperty`; with the unique keys a Go map
guarantees, that is iteration over the entries, as modelled here.) -/
def definePropsFirstPass (st : Store) :
    List (String × Property) → Option (Except ErrorMsg (List (String × PropDesc)))
  | [] => some (.ok [])
  | (k, p) :: rest =>
    if !p.IsEnumerable then definePropsFirstPass st rest
    else
      match p.Value with
      | .object dr =>
        match st.get? dr with
        | none => none
        | some dObj =>
          match toPropertyDescriptor st dObj with
          | .error e => some (.error e)
          | .ok pd =>
            match definePropsFirstPass st rest with
            | none => none
            | some (.error e) => some (.error e)
            | some (.ok kpds) => some (.ok ((k, pd) :: kpds))
      | _ => some (.error (mkTE "Property descriptor must be an object"))

/-- Second pass of `builtinObjectꞏdefineProperties` (builtin_object.go:177):
apply the converted descriptors to the target in order; an error
carries the store at the failure point (earlier defines stay applied). -/
def definePropsSecondPass (r : Nat) :
    List (String × PropDesc) → Store → Option (Except (ErrorMsg × Store) Store)
  | [], st => some (.ok st)
  | (k, pd) :: rest, st =>
    match st.get? r with
    | none => none
    | some o =>
      match o.defineOwnProperty k pd with
      | .error e => some (.error (e, st))
      | .ok o' => definePropsSecondPass r rest (st.set r o')

/-- `builtinObjectꞏdefineProperties` (builtin_object.go:146): args[0]
must be an Object; args[1] is coerced with toObject; descriptors are
converted in a first pass and applied in a second pass only if every
conversion succeeded; returns args[0]. -/
def builtinObject_defineProperties (st : Store) (args : List Value) :
    Option (Value × Bool × Store) :=
  match args.get? 0 with
  | none => none
  | some (.object r) =>
    match args.get? 1 with
    | none => none
    | some a1 =>
      match toObject st a1 with
      | .error e =>
        let (v, st') := nativeError st e
        some (v, true, st')
      | .ok (pr, st1) =>
        match st1.get? pr with
        | none => none
        | some pObj =>
          match definePropsFirstPass st1 pObj.props with
          | none => none
          | some (.error e) =>
            let (v, st2) := nativeError st1 e
            some (v, true, st2)
          | some (.ok kpds) =>
            match definePropsSecondPass r kpds st1 with
            | none => none
            | some (.error (e, st2)) =>
              let (v, st3) := nativeError st2 e
              some (v, true, st3)
            | some (.ok st2) => some (.object r, false, st2)
  | some a0 =>
    match valueToString a0 with
    | none => none
    | some s0 =>
      let (v, st') := typeError st ("Cannot define property on " ++ s0)
      some (v, true, st')

/-- `builtinObjectꞏcreate` (builtin_object.go:107): Null prototype gives
a fresh object with no prototype (returning immediately); a non-Object
non-Null prototype is a thrown TypeError; otherwise a fresh object with
that prototype, and when a second argument is present,
`defineProperties` is invoked on the new object — its return value and
thrown flag are discarded (only its heap effects persist), exactly as
in the source. -/
def builtinObject_create (st : Store) (args : List Value) :
    Option (Value × Bool × Store) :=
  match args.get? 0 with
  | none => none
  | some a0 =>
    if a0 = .null then
      let (r, st') := st.alloc (newObject none)
      some (.object r, false, st')
    else
      match a0 with
      | .object p =>
        let (r, st1) := st.alloc (newObject (some p))
        if args.length > 1 then
          match args.get? 1 with
          | none => none
          | some a1 =>
            match builtinObject_defineProperties st1 [.object r, a1] with
            | none => none
            | some (_, _, st2) => some (.object r, false, st2)
        else some (.object r, false, st1)
      | _ =>
        let (v, st') := typeError st "Object prototype may only be an Object or null"
        some (v, true, st')

/-! ## Observation helpers and a concrete test heap -/

/-- Extract the (name, message) pair of a thrown built-in result: the
result must be thrown, its value an object whose `name`/`message` own
data properties are strings. -/
def thrownError (res : Option (Value × Bool × Store)) : Option ErrorMsg :=
  match res with
  | some (.object r, true, st') =>
    match st'.get? r with
    | some o =>
      match o.ownDataValue "name", o.ownDataValue "message" with
      | some (.string n), some (.string m) => some ⟨n, m⟩
      | _, _ => none
    | none => none
  | _ => none

/-- Well-formedness of a store: every allocated reference is below
`next` (true of every store Go can reach, since references are only
created by allocation). -/
def Store.wf (st : Store) : Bool :=
  st.objs.all (fun p => decide (p.1 < st.next))

/-- A fully populated data property, as a JS object literal creates it. -/
def descProp (v : Value) : Property := .data v true true true

/-- The target object of the test heap (a plain empty object). -/
def targetObj : Obj := newObject (some objectProtoRef)

/-- Descriptor object `{value: 1, enumerable: true}` (well-formed). -/
def descA : Obj :=
  { protoRef := some objectProtoRef,
    props := [("value", descProp (.number (.finite (Q.ofInt 1)))),
              ("enumerable", descProp (.boolean true))] }

/-- Descriptor object `{value: 2, get: function(){}}` (malformed: both
data and accessor fields). -/
def descB : Obj :=
  { protoRef := some objectProtoRef,
    props := [("value", descProp (.number (.finite (Q.ofInt 2)))),
              ("get", descProp (.object 9))] }

/-- A function object (callable), the getter stored in `descB`. -/
def fnObj : Obj := { protoRef := some objectProtoRef, callable := true }

/-- Props object `{a: {value:1,enumerable:true}, b: {value:2,get:f}}` —
the spec's two-phase example (its `b` descriptor is malformed). -/
def badProps : Obj :=
  { protoRef := some objectProtoRef,
    props := [("a", descProp (.object 7)), ("b", descProp (.object 8))] }

/-- Props object `{a: {value:1,enumerable:true}}` (all well-formed). -/
def goodProps : Obj :=
  { protoRef := some objectProtoRef, props := [("a", descProp (.object 7))] }

/-- A concrete heap: the five roots, then the target (5), `badProps`
(6), `descA` (7), `descB` (8), the function object (9) and `goodProps`
(10). -/
def testStore : Store :=
  ⟨11, initStore.objs ++
    [(5, targetObj), (6, badProps), (7, descA), (8, descB), (9, fnObj),
     (10, goodProps)]⟩

/-! ## The two-phase discipline of defineProperties -/

/-- A property value that fails descriptor conversion: not an object,
or an object whose `ToPropertyDescriptor` errors (a dangling reference
cannot arise from Go and counts as malformed). -/
def descMalformedB (st : Store) (v : Value) : Bool :=
  match v with
  | .object dr =>
    match st.get? dr with
    | some dObj =>
      match toPropertyDescriptor st dObj with
      | .error _ => true
      | .ok _ => false
    | none => true
  | _ => true

/-- Every enumerable own property whose value is an object resolves in
the store (always true of a heap Go can reach). -/
def propsResolvedB (st : Store) (props : List (String × Property)) : Bool :=
  props.all (fun kp => !kp.2.IsEnumerable ||
    (match kp.2.Value with
     | .object dr => (st.get? dr).isSome
     | _ => true))

/-- Some enumerable own property has a malformed descriptor value. -/
def hasMalformedB (st : Store) (props : List (String × Property)) : Bool :=
  props.any (fun kp => kp.2.IsEnumerable && descMalformedB st kp.2.Value)

/-! ## Store lemmas -/

theorem find?_last_of_lt (l : List (Nat × Obj)) (n : Nat) (o : Obj)
    (h : ∀ p ∈ l, p.1 < n) :
    (l ++ [(n, o)]).find? (fun p => p.1 == n) = some (n, o) := by
  induction l with
  | nil => simp
  | cons a t ih =>
    have ha : a.1 < n := h a (by simp)
    have hne : (a.1 == n) = false := by
      simp only [beq_eq_false_iff_ne, ne_eq]
      omega
    simp only [List.cons_append, List.find?, hne]
    exact ih (fun p hp => h p (by simp [hp]))

theorem find?_append_left (l₁ l₂ : List (Nat × Obj)) (r : Nat)
    (h : (l₁.find? (fun p => p.1 == r)).isSome) :
    (l₁ ++ l₂).find? (fun p => p.1 == r) = l₁.find? (fun p => p.1 == r) := by
  induction l₁ with
  | nil => simp at h
  | cons a t ih =>
    by_cases ha : (a.1 == r) = true
    · simp [List.find?, ha]
    · have ha' : (a.1 == r) = false := by simpa using ha
      simp only [List.find?, ha', List.cons_append] at h ⊢
      exact ih h

theorem Store.get?_alloc_self (st : Store) (o : Obj) (h : st.wf = true) :
    (st.alloc o).2.get? st.next = some o := by
  have hlt : ∀ p ∈ st.objs, p.1 < st.next := by
    intro p hp
    have := List.all_eq_true.mp h p hp
    exact of_decide_eq_true this
  simp [Store.alloc, Store.get?, find?_last_of_lt st.objs st.next o hlt]

theorem Store.get?_alloc_other (st : Store) (o : Obj) (r : Nat)
    (h : (st.get? r).isSome) :
    (st.alloc o).2.get? r = st.get? r := by
  have h' : (st.objs.find? (fun p => p.1 == r)).isSome := by
    simpa [Store.get?] using h
  simp [Store.alloc, Store.get?, find?_append_left st.objs [(st.next, o)] r h']

/-- The thrown result of `nativeError` observes as exactly the pair it
was built from (in a well-formed store). -/
theorem thrownError_nativeError (st : Store) (e : ErrorMsg) (h : st.wf = true) :
    thrownError (some ((nativeError st e).1, true, (nativeError st e).2))
      = some e := by
  have hlt : ∀ p ∈ st.objs, p.1 < st.next := fun p hp =>
    of_decide_eq_true (List.all_eq_true.mp h p hp)
  simp only [nativeError, thrownError, Store.alloc, Store.get?]
  rw [find?_last_of_lt st.objs st.next _ hlt]
  rfl

/-! ## The claims -/

/-- C9: `Null.Type()` returns the string "object" (not "null"), while
`Null.IsPrimitive()` returns true — Null reports the object type tag
yet remains a primitive (primitives.go:346–353). -/
theorem null_type_object_yet_primitive :
    valueType .null = "object" ∧ valueIsPrimitive .null = true := by
  exact ⟨rfl, rfl⟩

/-- C8: for every primitive value p, ToPrimitive(p) = p; moreover
ToString(p) is a (defined) String, ToNumber(p) a Number, and
ToBoolean(p) a Boolean (primitives.go: the per-variant coercions). -/
theorem primitive_coercion_contract (v : Value) (h : valueIsPrimitive v = true) :
    valueToPrimitive v = some v ∧ (valueToString v).isSome
      ∧ (valueToNumber v).isSome
      ∧ (valueToBoolean v = true ∨ valueToBoolean v = false) := by
  cases v <;>
    simp_all [valueIsPrimitive, valueToPrimitive, valueToString, valueToNumber]

theorem primitive_coercion_contract_witness :
    valueIsPrimitive (.boolean true) = true
      ∧ (valueToPrimitive (.boolean true) = some (.boolean true)
          ∧ (valueToString (.boolean true)).isSome
          ∧ (valueToNumber (.boolean true)).isSome
          ∧ (valueToBoolean (.boolean true) = true
              ∨ valueToBoolean (.boolean true) = false)) :=
  ⟨by decide, primitive_coercion_contract (.boolean true) (by decide)⟩

/-- C7: for every property key, GetProperty and SetProperty on the
Undefined value and on the Null value each return a TypeError — they
never succeed and never return anything but the error
(primitives.go:366–380, 436–450). -/
theorem undefined_null_property_access_throws (st : Store) (name : String) (val : Value) :
    valueGetProperty st .null name
        = some (.error ⟨"TypeError", "Cannot read property '" ++ name ++ "' of null"⟩)
  ∧ valueSetProperty st .null name val
        = some (some ⟨"TypeError", "Cannot set property '" ++ name ++ "' of null"⟩, st)
  ∧ valueGetProperty st .undefined name
        = some (.error ⟨"TypeError", "Cannot read property '" ++ name ++ "' of undefined"⟩)
  ∧ valueSetProperty st .undefined name val
        = some (some ⟨"TypeError", "Cannot set property '" ++ name ++ "' of undefined"⟩, st) :=
  ⟨rfl, rfl, rfl, rfl⟩

/-- C10: the Object built-ins index their positional arguments without
checking `len(args)` against the declared arity, so each of them panics
(`none`) on an args slice shorter than its arity; only `Object.create`
guards its optional second argument with a length check (its first
argument is still unguarded). -/
theorem builtins_index_args_without_arity_check :
    builtinObjectNativeImpls.lookup "Object.getPrototypeOf" = some 1
  ∧ builtinObject_getPrototypeOf testStore [] = none
  ∧ builtinObjectNativeImpls.lookup "Object.getOwnPropertyDescriptor" = some 2
  ∧ builtinObject_getOwnPropertyDescriptor testStore [.object 5] = none
  ∧ builtinObjectNativeImpls.lookup "Object.getOwnPropertyNames" = some 1
  ∧ builtinObject_getOwnPropertyNames testStore [] = none
  ∧ builtinObjectNativeImpls.lookup "Object.defineProperty" = some 3
  ∧ builtinObject_defineProperty testStore [.object 5, .string "x"] = none
  ∧ builtinObjectNativeImpls.lookup "Object.defineProperties" = some 2
  ∧ builtinObject_defineProperties testStore [.object 5] = none
  ∧ builtinObjectNativeImpls.lookup "Object.create" = some 2
  ∧ builtinObject_create testStore [] = none
  ∧ (builtinObject_create testStore [.object 5]).map (fun t => (t.1, t.2.1))
      = some (.object 11, false) := by
  decide

/-- C6: `GetProperty("length")` on a String returns a Number equal to
the number of UTF-16 code units encoding it (primitives.go:246–251) —
not bytes, not code points, as the concrete cases show — and every
other key delegates to StringProto. -/
theorem string_length_utf16_units (st : Store) (s : String) (name : String)
    (h : name ≠ "length") :
    valueGetProperty st (.string s) "length"
        = some (.ok (.number (.finite (Q.ofInt (stringUtf16Length s)))))
  ∧ valueGetProperty st (.string s) name = objGetProperty st stringProtoRef name
  ∧ stringUtf16Length s = (utf16Encode s.data).length
  ∧ stringUtf16Length "héllo" = 5 ∧ "héllo".data.length = 5
  ∧ "héllo".utf8ByteSize = 6
  ∧ stringUtf16Length "𐐷" = 2 ∧ "𐐷".data.length = 1
  ∧ "𐐷".utf8ByteSize = 4 := by
  refine ⟨by simp [valueGetProperty], by simp [valueGetProperty, h], rfl,
    by decide, by decide, by decide, by decide, by decide, by decide⟩

theorem string_length_utf16_units_witness :
    valueGetProperty initStore (.string "héllo") "x"
        = objGetProperty initStore stringProtoRef "x"
      ∧ stringUtf16Length "héllo" = 5 :=
  ⟨(string_length_utf16_units initStore "héllo" "x" (by decide)).2.1,
   (string_length_utf16_units initStore "héllo" "x" (by decide)).2.2.2.1⟩

/-- C3: `Object.getPrototypeOf(x)` throws TypeError with message
"Cannot get prototype of <ToString(x)>" for every non-Object x
(message "Cannot get prototype of 42" for the argument 42), and for
every Object argument returns its internal prototype, or Null when it
has none; in particular on `Object.create(null)`'s result it returns
Null (builtin_object.go:62–72). -/
theorem getPrototypeOf_contract (st : Store) (v : Value) (s0 : String)
    (r : Nat) (o : Obj) :
    (st.wf = true → valueToString v = some s0 → (∀ ref, v ≠ .object ref) →
      thrownError (builtinObject_getPrototypeOf st [v])
        = some ⟨"TypeError", "Cannot get prototype of " ++ s0⟩)
  ∧ (st.get? r = some o →
      builtinObject_getPrototypeOf st [.object r]
        = some ((o.protoRef.map Value.object).getD .null, false, st))
  ∧ thrownError (builtinObject_getPrototypeOf testStore
        [.number (.finite (Q.ofInt 42))])
      = some ⟨"TypeError", "Cannot get prototype of 42"⟩
  ∧ ((builtinObject_create testStore [.null]).bind
      (fun t => builtinObject_getPrototypeOf t.2.2 [t.1])).map
        (fun t => (t.1, t.2.1))
      = some (.null, false) := by
  refine ⟨?_, ?_, by decide, by decide⟩
  · intro hwf hts hno
    cases v with
    | object ref => exact absurd rfl (hno ref)
    | undefined | null =>
      simp only [valueToString, Option.some.injEq] at hts
      subst hts
      simp only [builtinObject_getPrototypeOf, List.get?, valueToString]
      exact thrownError_nativeError st (mkTE _) hwf
    | boolean b | number n | string sv =>
      simp only [valueToString, Option.some.injEq] at hts
      subst hts
      simp only [builtinObject_getPrototypeOf, List.get?, valueToString]
      exact thrownError_nativeError st (mkTE _) hwf
  · intro hget
    simp only [builtinObject_getPrototypeOf, List.get?, hget]
    cases o.protoRef <;> rfl

theorem getPrototypeOf_contract_witness :
    thrownError (builtinObject_getPrototypeOf testStore [.string "hi"])
        = some ⟨"TypeError", "Cannot get prototype of hi"⟩
  ∧ builtinObject_getPrototypeOf testStore [.object 5]
        = some (.object 0, false, testStore) :=
  ⟨(getPrototypeOf_contract testStore (.string "hi") "hi" 5 targetObj).1
      (by decide) (by decide) (fun ref h => Value.noConfusion h),
   (getPrototypeOf_contract testStore (.string "hi") "hi" 5 targetObj).2.1
      (by decide)⟩

/-! ## Trim lemmas for the ToNumber contract -/

theorem dropWhile_append_all (p : Char → Bool) (l₁ l : List Char)
    (h : ∀ c ∈ l₁, p c = true) :
    (l₁ ++ l).dropWhile p = l.dropWhile p := by
  induction l₁ with
  | nil => simp
  | cons a t ih =>
    have ha : p a = true := h a (by simp)
    simp only [List.cons_append, List.dropWhile_cons, ha, if_true]
    exact ih (fun c hc => h c (by simp [hc]))

theorem dropWhile_eq_nil_of_all (p : Char → Bool) (l : List Char)
    (h : ∀ c ∈ l, p c = true) : l.dropWhile p = [] := by
  induction l with
  | nil => rfl
  | cons a t ih =>
    have ha : p a = true := h a (by simp)
    simp only [List.dropWhile_cons, ha, if_true]
    exact ih (fun c hc => h c (by simp [hc]))

theorem dropWhile_append_of_ne_nil (p : Char → Bool) (l l₂ : List Char)
    (h : l.dropWhile p ≠ []) :
    (l ++ l₂).dropWhile p = l.dropWhile p ++ l₂ := by
  induction l with
  | nil => simp at h
  | cons a t ih =>
    by_cases ha : p a = true
    · simp only [List.dropWhile_cons, ha, if_true] at h ⊢
      simpa [ha] using ih h
    · have ha' : p a = false := by simpa using ha
      simp [List.dropWhile_cons, ha']

theorem trimList_prefix (p : Char → Bool) (l₁ l : List Char)
    (h : ∀ c ∈ l₁, p c = true) :
    trimList p (l₁ ++ l) = trimList p l := by
  unfold trimList
  rw [dropWhile_append_all p l₁ l h]

theorem trimList_suffix (p : Char → Bool) (l l₂ : List Char)
    (h : ∀ c ∈ l₂, p c = true) :
    trimList p (l ++ l₂) = trimList p l := by
  by_cases hnil : l.dropWhile p = []
  · have hall : ∀ c ∈ l, p c = true := by
      intro c hc
      exact List.dropWhile_eq_nil_iff.mp hnil c hc
    have h2 : (l ++ l₂).dropWhile p = [] :=
      dropWhile_eq_nil_of_all p _ (by
        intro c hc
        rcases List.mem_append.mp hc with h' | h'
        · exact hall c h'
        · exact h c h')
    unfold trimList
    rw [h2, hnil]
  · unfold trimList
    rw [dropWhile_append_of_ne_nil p l l₂ hnil, List.reverse_append,
      dropWhile_append_all p l₂.reverse (l.dropWhile p).reverse
        (fun c hc => h c (List.mem_reverse.mp hc))]

theorem string_data_append (a b : String) : (a ++ b).data = a.data ++ b.data := by
  simp

/-- `String.ToNumber` only looks at the `TrimSpace`d input: surrounding
Unicode whitespace never changes the result. -/
theorem stringToNumber_trim_invariant (pre s suf : String)
    (h1 : ∀ c ∈ pre.data, isSpaceGo c = true)
    (h2 : ∀ c ∈ suf.data, isSpaceGo c = true) :
    stringToNumber (pre ++ s ++ suf) = stringToNumber s := by
  have htrim : trimSpaceGo (pre ++ s ++ suf) = trimSpaceGo s := by
    unfold trimSpaceGo
    rw [string_data_append, string_data_append]
    rw [List.append_assoc, trimList_prefix isSpaceGo pre.data _ h1,
      trimList_suffix isSpaceGo s.data suf.data h2]
  simp only [stringToNumber, htrim]

theorem stringToNumber_all_space (s : String)
    (h : ∀ c ∈ s.data, isSpaceGo c = true) :
    stringToNumber s = .finite (Q.ofInt 0) := by
  have htrim : trimSpaceGo s = "" := by
    unfold trimSpaceGo trimList
    rw [dropWhile_eq_nil_of_all isSpaceGo s.data h]
    rfl
  simp [stringToNumber, htrim]
  rfl

/-- C5 counterexample: the claim says ToNumber "first trims ASCII
whitespace"; the source uses `strings.TrimSpace`, which trims Unicode
whitespace.  On the input NO-BREAK SPACE + "26" the code returns 26,
while the claim's algorithm (ASCII trim, then an unparseable string)
yields NaN. -/
theorem stringToNumber_ascii_trim_cex :
    stringToNumber "\u00A026" = .finite (Q.ofInt 26)
  ∧ stringToNumberClaimAscii "\u00A026" = .nan := by
  decide

/-- C5 (amended: the trimmed whitespace is Unicode whitespace, Go
`strings.TrimSpace`, a superset of ASCII whitespace): ToNumber trims
whitespace (result invariant under whitespace padding, 0 when nothing
remains), parses a hexadecimal integer after a 0x/0X prefix, otherwise
a decimal float, NaN on unparseable input and ±Infinity on
out-of-range input; in particular " 0x1A " ↦ 26, "" ↦ 0, "abc" ↦ NaN
(primitives.go:291–326). -/
theorem stringToNumber_contract_amended :
    stringToNumber " 0x1A " = .finite (Q.ofInt 26)
  ∧ stringToNumber "" = .finite (Q.ofInt 0)
  ∧ stringToNumber "abc" = .nan
  ∧ (∀ pre s suf : String, (∀ c ∈ pre.data, isSpaceGo c = true) →
      (∀ c ∈ suf.data, isSpaceGo c = true) →
      stringToNumber (pre ++ s ++ suf) = stringToNumber s)
  ∧ (∀ s : String, (∀ c ∈ s.data, isSpaceGo c = true) →
      stringToNumber s = .finite (Q.ofInt 0))
  ∧ stringToNumber "0XFF" = .finite (Q.ofInt 255)
  ∧ stringToNumber "0xZZ" = .nan
  ∧ stringToNumber "0xFFFFFFFFFFFFFFFFFF" = .inf true
  ∧ stringToNumber "1e999" = .inf true
  ∧ stringToNumber "-1e999" = .inf false := by
  refine ⟨by decide, by decide, by decide, stringToNumber_trim_invariant,
    stringToNumber_all_space, by decide, by decide, by decide, by decide,
    by decide⟩

theorem stringToNumber_contract_amended_witness :
    stringToNumber ("\u00A0" ++ "0x1A" ++ " ") = stringToNumber "0x1A" :=
  stringToNumber_contract_amended.2.2.2.1 "\u00A0" "0x1A" " "
    (by decide) (by decide)

theorem toPropertyDescriptor_error_name (st : Store) (d : Obj) (e : ErrorMsg)
    (h : toPropertyDescriptor st d = .error e) : e.name = "TypeError" := by
  unfold toPropertyDescriptor at h
  dsimp only at h
  split_ifs at h <;>
    first
      | exact Except.noConfusion h
      | (injection h with h2; rw [← h2]; rfl)

/-- The first pass stops with a TypeError whenever any enumerable own
property of the props object is malformed. -/
theorem firstPass_error_of_malformed (st : Store) :
    ∀ l : List (String × Property),
    propsResolvedB st l = true → hasMalformedB st l = true →
    ∃ e : ErrorMsg, definePropsFirstPass st l = some (.error e)
      ∧ e.name = "TypeError" := by
  intro l
  induction l with
  | nil => intro _ hm; simp [hasMalformedB] at hm
  | cons kp rest ih =>
    intro hres hmal
    obtain ⟨k, p⟩ := kp
    have hres' : propsResolvedB st rest = true := by
      simp only [propsResolvedB, List.all_cons, Bool.and_eq_true] at hres
      exact hres.2
    by_cases he : p.IsEnumerable = true
    · cases hv : p.Value with
      | object dr =>
        have hsome : (st.get? dr).isSome = true := by
          simp only [propsResolvedB, List.all_cons, Bool.and_eq_true] at hres
          have hh := hres.1
          simp only [he, hv, Bool.not_true, Bool.false_or] at hh
          exact hh
        obtain ⟨dObj, hd⟩ := Option.isSome_iff_exists.mp hsome
        cases htp : toPropertyDescriptor st dObj with
        | error e =>
          refine ⟨e, ?_, toPropertyDescriptor_error_name st dObj e htp⟩
          simp [definePropsFirstPass, he, hv, hd, htp]
        | ok pd =>
          have hdescok : descMalformedB st p.Value = false := by
            simp [descMalformedB, hv, hd, htp]
          have hmal' : hasMalformedB st rest = true := by
            simp only [hasMalformedB, List.any_cons, Bool.or_eq_true,
              Bool.and_eq_true] at hmal
            rcases hmal with ⟨_, hbad⟩ | h'
            · simp [hdescok] at hbad
            · exact h'
          obtain ⟨e, h1, h2⟩ := ih hres' hmal'
          refine ⟨e, ?_, h2⟩
          simp [definePropsFirstPass, he, hv, hd, htp, h1]
      | undefined =>
        exact ⟨mkTE "Property descriptor must be an object",
          by simp [definePropsFirstPass, he, hv], rfl⟩
      | null =>
        exact ⟨mkTE "Property descriptor must be an object",
          by simp [definePropsFirstPass, he, hv], rfl⟩
      | boolean b =>
        exact ⟨mkTE "Property descriptor must be an object",
          by simp [definePropsFirstPass, he, hv], rfl⟩
      | number n =>
        exact ⟨mkTE "Property descriptor must be an object",
          by simp [definePropsFirstPass, he, hv], rfl⟩
      | string sv =>
        exact ⟨mkTE "Property descriptor must be an object",
          by simp [definePropsFirstPass, he, hv], rfl⟩
    · have he' : p.IsEnumerable = false := by simpa using he
      have hmal' : hasMalformedB st rest = true := by
        simp only [hasMalformedB, List.any_cons, Bool.or_eq_true,
          Bool.and_eq_true, he'] at hmal ⊢
        rcases hmal with ⟨hcontra, _⟩ | h'
        · cases hcontra
        · exact h'
      obtain ⟨e, h1, h2⟩ := ih hres' hmal'
      refine ⟨e, ?_, h2⟩
      simp [definePropsFirstPass, he', h1]

/-- C2: `Object.defineProperties(obj, propsObj)` converts every
enumerable own property of propsObj in a first pass and applies them
only if all conversions succeed; whenever any descriptor is malformed,
the call returns a thrown TypeError and obj's own properties are
unchanged — all-or-none (builtin_object.go:146–184). -/
theorem defineProperties_two_phase (st : Store) (oref pref : Nat) (pObj : Obj)
    (hwf : st.wf = true)
    (htarget : (st.get? oref).isSome)
    (hprops : st.get? pref = some pObj)
    (hres : propsResolvedB st pObj.props = true)
    (hmal : hasMalformedB st pObj.props = true) :
    (thrownError (builtinObject_defineProperties st
        [.object oref, .object pref])).map ErrorMsg.name = some "TypeError"
  ∧ (builtinObject_defineProperties st [.object oref, .object pref]).map
      (fun t => (t.2.1, t.2.2.get? oref)) = some (true, st.get? oref) := by
  obtain ⟨e, h1, h2⟩ := firstPass_error_of_malformed st pObj.props hres hmal
  simp only [builtinObject_defineProperties, List.get?, toObject, hprops, h1]
  constructor
  · have hne := thrownError_nativeError st e hwf
    show (thrownError (some ((nativeError st e).1, true,
      (nativeError st e).2))).map ErrorMsg.name = some "TypeError"
    rw [hne]
    simp [h2]
  · show (some ((nativeError st e).1, true, (nativeError st e).2)).map
      (fun t => (t.2.1, t.2.2.get? oref)) = some (true, st.get? oref)
    have hpres : (nativeError st e).2.get? oref = st.get? oref :=
      Store.get?_alloc_other st _ oref htarget
    simp [Option.map, hpres]

theorem defineProperties_two_phase_witness :
    (thrownError (builtinObject_defineProperties testStore
        [.object 5, .object 6])).map ErrorMsg.name = some "TypeError"
  ∧ (builtinObject_defineProperties testStore [.object 5, .object 6]).map
      (fun t => (t.2.1, t.2.2.get? 5)) = some (true, testStore.get? 5) :=
  defineProperties_two_phase testStore 5 6 badProps (by decide) (by decide)
    (by decide) (by decide) (by decide)

/-- C1 (the code violates the propagation rule): on
`Object.create({}, {a:…, b:{value:2,get:f}})` the `defineProperties`
sub-call — evaluated here on exactly the store and arguments `create`
passes it — returns a thrown TypeError, yet `create` discards that
result (builtin_object.go:119) and returns the new object with the
thrown flag false. -/
theorem create_swallows_thrown_flag :
    (thrownError (builtinObject_defineProperties
        ((testStore.alloc (newObject (some 5))).2)
        [.object 11, .object 6])).map ErrorMsg.name = some "TypeError"
  ∧ (builtinObject_create testStore [.object 5, .object 6]).map
      (fun t => (t.1, t.2.1)) = some (.object 11, false) := by
  decide

/-- C4 counterexample: the claim says `Object.create(proto, props)`
applies `defineProperties` whenever props is supplied — but with a
Null proto the source returns at builtin_object.go:110 before looking
at props.  Applying `defineProperties` to a fresh prototype-less object
with these props would define own property "a" (first conjunct), yet
`create(null, props)` returns the fresh object without it (second
conjunct). -/
theorem create_null_proto_ignores_props_cex :
    (builtinObject_defineProperties ((testStore.alloc (newObject none)).2)
        [.object 11, .object 10]).map
      (fun t => (t.2.1, (t.2.2.get? 11).map
        (fun o => (o.getOwnProperty "a").isSome))) = some (false, some true)
  ∧ (builtinObject_create testStore [.null, .object 10]).map
      (fun t => (t.1, t.2.1, (t.2.2.get? 11).map
        (fun o => (o.getOwnProperty "a").isSome)))
      = some (.object 11, false, some false) := by
  decide

/-- C4 (amended: when proto is Null the props argument is ignored —
the source returns immediately — and when proto is an Object the
`defineProperties` call's thrown result is discarded): create throws
TypeError "Object prototype may only be an Object or null" for every
proto that is neither Object nor Null, and otherwise returns a fresh
object with that prototype (builtin_object.go:107–123). -/
theorem create_contract_amended (st : Store) (v : Value) (p : Nat)
    (rest : List Value) (a1 : Value) :
    (st.wf = true → v ≠ .null → (∀ r, v ≠ .object r) →
      thrownError (builtinObject_create st (v :: rest))
        = some ⟨"TypeError", "Object prototype may only be an Object or null"⟩)
  ∧ (builtinObject_create st (.null :: rest)
      = some (.object st.next, false, (st.alloc (newObject none)).2))
  ∧ (builtinObject_create st [.object p]
      = some (.object st.next, false, (st.alloc (newObject (some p))).2))
  ∧ (builtinObject_create st (.object p :: a1 :: rest)
      = match builtinObject_defineProperties ((st.alloc (newObject (some p))).2)
          [.object st.next, a1] with
        | none => none
        | some (_, _, st2) => some (.object st.next, false, st2)) := by
  refine ⟨?_, ?_, ?_, ?_⟩
  · intro hwf hnull hno
    cases v with
    | object r => exact absurd rfl (hno r)
    | null => exact absurd rfl hnull
    | undefined | boolean b | number n | string sv =>
      simp only [builtinObject_create, List.get?]
      exact thrownError_nativeError st (mkTE _) hwf
  · rfl
  · rfl
  · simp only [builtinObject_create, List.get?, List.length_cons]
    rw [if_neg (show Value.object p = Value.null → False from
      fun h => Value.noConfusion h)]
    rw [if_pos (by omega : rest.length + 1 + 1 > 1)]
    rfl

theorem create_contract_amended_witness :
    thrownError (builtinObject_create testStore [.string "hello"])
        = some ⟨"TypeError", "Object prototype may only be an Object or null"⟩
  ∧ builtinObject_create testStore [.null]
        = some (.object 11, false, (testStore.alloc (newObject none)).2) :=
  ⟨(create_contract_amended testStore (.string "hello") 0 [] .undefined).1
      (by decide) (by decide) (fun r h => Value.noConfusion h),
   (create_contract_amended testStore (.string "hello") 0 [] .undefined).2.1⟩

end CodeCity
